import Mathlib

/-!
Verification development for a rule-based customer-service routing system.

The system under study consists of an `MCPServer` (a CRUD facade over a
customer/ticket store), two specialist agents (`CustomerDataAgent`,
`SupportAgent`) and a `RouterAgent` whose `process_query` classifies a
free-text query into an intent and dispatches it to one of five
coordination-pattern handlers.  Every operation returns a uniform result
dictionary `{success, payload-keys..., error}`.

The embedding below translates the Python source into Lean:
pure functions become Lean functions, the SQLite-backed store becomes an
explicit `Store` value threaded through the mutating operations, and the
result dictionaries become the `Res` type (a success flag, an optional
payload and an optional error string).  The MCP server's console log lines
are modelled, where a claim needs them, as an explicit list of strings
returned next to the result.
-/

/-- A customer row, as selected by the MCP server
(`id, name, email, phone, status, created_at, updated_at`). -/
structure Customer where
  id : Int
  name : String
  email : String
  phone : String
  status : String
  created_at : String
  updated_at : String
  deriving Repr, DecidableEq

/-- A ticket row (`id, customer_id, issue, status, priority, created_at`). -/
structure Ticket where
  id : Nat
  customer_id : Int
  issue : String
  status : String
  priority : String
  created_at : String
  deriving Repr, DecidableEq

/-- A row of the `get_customers_with_open_tickets` join:
customer columns plus the open-ticket count. -/
structure OpenRow where
  id : Int
  name : String
  email : String
  status : String
  open_ticket_count : Nat
  deriving Repr, DecidableEq

/-- The database state behind the MCP server.  `nextTicketId` models
SQLite's `lastrowid` for the tickets table and `now` models
`CURRENT_TIMESTAMP`, used as `created_at` of a freshly inserted ticket. -/
structure Store where
  customers : List Customer
  tickets : List Ticket
  nextTicketId : Nat
  now : String
  deriving Repr, DecidableEq

/-- The optional `context` dictionary passed to `process_query`;
`customer_id = none` models a context without the `customer_id` key. -/
structure Ctx where
  customer_id : Option Int
  deriving Repr, DecidableEq

mutual

/-- The payload part of a result dictionary: one constructor per success
shape produced by the Python code (MCP tools, support-agent computations,
and the router's pattern handlers, which embed specialist results). -/
inductive Payload where
  | customerFound : Customer → Payload
  | updated : Int → List String → Payload
  | ticketCreated : Nat → Int → String → String → String → Payload
  | history : Int → String → List Ticket → Nat → Payload
  | openTickets : List OpenRow → Nat → Payload
  | urgencyP : String → String → String → Payload
  | supportResponse : String → Payload
  | simpleData : String → Res → Payload
  | coordSupport : String → Res → Payload
  | analysisData : String → List OpenRow → Payload
  | escalationData : String → Res → Option Res → Payload
  | multiData : String → List (String × Res) → Payload

/-- The uniform result dictionary `{success, payload, error}` returned by
every operation in the system. -/
inductive Res where
  | mk : Bool → Option Payload → Option String → Res

end

/-- The `success` field of a result. -/
def Res.success : Res → Bool
  | Res.mk b _ _ => b

/-- The payload part of a result. -/
def Res.payload : Res → Option Payload
  | Res.mk _ p _ => p

/-- The `error` field of a result. -/
def Res.error : Res → Option String
  | Res.mk _ _ e => e

/-- A success dictionary `{success: True, ...payload...}`. -/
def Res.ok (p : Payload) : Res := Res.mk true (some p) none

/-- A failure dictionary `{success: False, error: e}`. -/
def Res.err (e : String) : Res := Res.mk false none (some e)

/-- The `results` list of a multi-intent result (`result[·results·]`). -/
def Res.multiResults (r : Res) : Option (List (String × Res)) :=
  match r.payload with
  | some (Payload.multiData _ rs) => some rs
  | _ => none

/-- The `urgency` sub-result embedded in an escalation result. -/
def Res.escUrgency (r : Res) : Option Res :=
  match r.payload with
  | some (Payload.escalationData _ u _) => some u
  | _ => none

/-- The `customer_data` block embedded in an escalation result. -/
def Res.escCustomer (r : Res) : Option Res :=
  match r.payload with
  | some (Payload.escalationData _ _ cd) => cd
  | _ => none

/-- The `updated_fields` list of an `update_customer` success result. -/
def Res.updatedFields (r : Res) : Option (List String) :=
  match r.payload with
  | some (Payload.updated _ fs) => some fs
  | _ => none

/-- Python's `str.lower()` (ASCII reading), applied per character.  Core's
`String.toLower` is implemented by well-founded recursion and does not
reduce definitionally, so the embedding lowers via the character list. -/
def pyLower (s : String) : String := String.mk (s.toList.map Char.toLower)

/-- Python's `str.upper()` (ASCII reading), applied per character. -/
def pyUpper (s : String) : String := String.mk (s.toList.map Char.toUpper)

/-- Python's substring test `needle in hay`. -/
def strContains (hay needle : String) : Bool :=
  (List.range (hay.toList.length + 1)).any
    (fun i => needle.toList.isPrefixOf (hay.toList.drop i))

/-- Byte-wise (codepoint) string comparison, modelling SQLite's default
text ordering used in `ORDER BY created_at DESC`. -/
def strLtChars : List Char → List Char → Bool
  | [], [] => false
  | [], _ :: _ => true
  | _ :: _, [] => false
  | a :: as, b :: bs =>
    if a.toNat < b.toNat then true
    else if b.toNat < a.toNat then false
    else strLtChars as bs

/-- Insert a ticket into a list sorted by `created_at` descending. -/
def insertTicketByCreatedDesc (t : Ticket) : List Ticket → List Ticket
  | [] => [t]
  | x :: xs =>
    if strLtChars x.created_at.toList t.created_at.toList then t :: x :: xs
    else x :: insertTicketByCreatedDesc t xs

/-- Sort tickets by `created_at` descending (`ORDER BY created_at DESC`). -/
def sortTicketsByCreatedDesc (l : List Ticket) : List Ticket :=
  l.foldl (fun acc t => insertTicketByCreatedDesc t acc) []

/-- Insert a join row into a list sorted by `open_ticket_count` descending. -/
def insertRowByCountDesc (r : OpenRow) : List OpenRow → List OpenRow
  | [] => [r]
  | x :: xs =>
    if x.open_ticket_count < r.open_ticket_count then r :: x :: xs
    else x :: insertRowByCountDesc r xs

/-- Sort join rows by `open_ticket_count` descending
(`ORDER BY open_ticket_count DESC`). -/
def sortRowsByCountDesc (l : List OpenRow) : List OpenRow :=
  l.foldl (fun acc r => insertRowByCountDesc r acc) []

/-- MCPServer.get_customer: `SELECT ... FROM customers WHERE id = ?`,
wrapped as `{success: True, customer: row}` or a not-found error. -/
def get_customer (st : Store) (customer_id : Int) : Res :=
  match st.customers.find? (fun c => c.id == customer_id) with
  | some c => Res.ok (Payload.customerFound c)
  | none => Res.err ("Customer " ++ toString customer_id ++ " not found")

/-- The allowed update columns of `MCPServer.update_customer`. -/
def allowed_fields : List String := ["name", "email", "phone", "status"]

/-- Apply one `field = value` assignment of the generated `UPDATE` statement
to a customer row. -/
def applyField (c : Customer) : String × String → Customer
  | ("name", v) => { c with name := v }
  | ("email", v) => { c with email := v }
  | ("phone", v) => { c with phone := v }
  | ("status", v) => { c with status := v }
  | _ => c

/-- MCPServer.update_customer: existence check, filter of `data` down to the
allowed fields, then the generated `UPDATE`.  Note the success payload
reports `list(data.keys())` — all keys of the input mapping. -/
def update_customer (st : Store) (customer_id : Int) (data : List (String × String)) :
    Res × Store :=
  if st.customers.any (fun c => c.id == customer_id) then
    if (data.filter (fun fv => allowed_fields.contains fv.1)).isEmpty then
      (Res.err "No valid fields to update", st)
    else
      (Res.ok (Payload.updated customer_id (data.map Prod.fst)),
       { st with customers := st.customers.map (fun c =>
           if c.id == customer_id then
             (data.filter (fun fv => allowed_fields.contains fv.1)).foldl applyField c
           else c) })
  else
    (Res.err ("Customer " ++ toString customer_id ++ " not found"), st)

/-- MCPServer.create_ticket: existence check, priority validation with
coercion to "medium", then the `INSERT`.  The third component models the
`[MCP]` console log lines the function prints, including the
invalid-priority warning. -/
def create_ticket (st : Store) (customer_id : Int) (issue : String) (priority : String) :
    Res × Store × List String :=
  if st.customers.any (fun c => c.id == customer_id) then
    if ["low", "medium", "high"].contains priority then
      (Res.ok (Payload.ticketCreated st.nextTicketId customer_id issue priority "open"),
       { st with
           tickets := st.tickets ++ [⟨st.nextTicketId, customer_id, issue, "open", priority, st.now⟩],
           nextTicketId := st.nextTicketId + 1 },
       ["[MCP] create_ticket called for customer_id=" ++ toString customer_id ++
          ", priority=" ++ priority,
        "[MCP] ✓ Ticket #" ++ toString st.nextTicketId ++ " created successfully"])
    else
      (Res.ok (Payload.ticketCreated st.nextTicketId customer_id issue "medium" "open"),
       { st with
           tickets := st.tickets ++ [⟨st.nextTicketId, customer_id, issue, "open", "medium", st.now⟩],
           nextTicketId := st.nextTicketId + 1 },
       ["[MCP] create_ticket called for customer_id=" ++ toString customer_id ++
          ", priority=" ++ priority,
        "[MCP] ⚠ Invalid priority \x27" ++ priority ++ "\x27, defaulting to \x27medium\x27",
        "[MCP] ✓ Ticket #" ++ toString st.nextTicketId ++ " created successfully"])
  else
    (Res.err ("Customer " ++ toString customer_id ++ " not found"), st,
     ["[MCP] create_ticket called for customer_id=" ++ toString customer_id ++
        ", priority=" ++ priority,
      "[MCP] ✗ Customer " ++ toString customer_id ++ " not found"])

/-- MCPServer.get_customer_history: existence check, then the ticket query
`WHERE customer_id = ? ORDER BY created_at DESC`. -/
def get_customer_history (st : Store) (customer_id : Int) : Res :=
  match st.customers.find? (fun c => c.id == customer_id) with
  | none => Res.err ("Customer " ++ toString customer_id ++ " not found")
  | some c =>
    Res.ok (Payload.history customer_id c.name
      (sortTicketsByCreatedDesc (st.tickets.filter (fun t => t.customer_id == customer_id)))
      (sortTicketsByCreatedDesc (st.tickets.filter (fun t => t.customer_id == customer_id))).length)

/-- The `COUNT(t.id)` of open tickets for one customer in the
`get_customers_with_open_tickets` join. -/
def openTicketCount (st : Store) (c : Customer) : Nat :=
  (st.tickets.filter (fun t => t.customer_id == c.id && t.status == "open")).length

/-- The rows of the `get_customers_with_open_tickets` join before sorting:
active customers that have at least one open ticket, with their counts. -/
def openRows (st : Store) : List OpenRow :=
  (st.customers.filter (fun c => c.status == "active" &&
      st.tickets.any (fun t => t.customer_id == c.id && t.status == "open"))).map
    (fun c => OpenRow.mk c.id c.name c.email c.status (openTicketCount st c))

/-- MCPServer.get_customers_with_open_tickets: the join, grouped per active
customer with open tickets and ordered by count descending. -/
def get_customers_with_open_tickets (st : Store) : Res :=
  Res.ok (Payload.openTickets (sortRowsByCountDesc (openRows st))
    (sortRowsByCountDesc (openRows st)).length)

/-- The ordered high-urgency keyword list of SupportAgent._assess_urgency. -/
def high_urgency : List String :=
  ["urgent", "immediately", "critical", "emergency", "down",
   "charged twice", "refund", "security", "breach"]

/-- The ordered medium-urgency keyword list of SupportAgent._assess_urgency. -/
def medium_urgency : List String :=
  ["issue", "problem", "not working", "broken", "help"]

/-- SupportAgent._assess_urgency: scan the lower-cased query for the first
high-urgency keyword, then the first medium-urgency keyword, else report a
low-urgency general inquiry.  Always succeeds. -/
def assess_urgency (query : String) : Res :=
  match high_urgency.find? (fun keyword => strContains (pyLower query) keyword) with
  | some keyword =>
    Res.ok (Payload.urgencyP "high" "high" ("Contains high-urgency keyword: " ++ keyword))
  | none =>
    match medium_urgency.find? (fun keyword => strContains (pyLower query) keyword) with
    | some keyword =>
      Res.ok (Payload.urgencyP "medium" "medium" ("Contains medium-urgency keyword: " ++ keyword))
    | none => Res.ok (Payload.urgencyP "low" "low" "General inquiry")

/-- SupportAgent._generate_response: the fixed if/else ladder over keyword
categories, producing a templated greeting with the customer's name.
The `status` argument is extracted by the caller but never used. -/
def generate_response (query : String) (name : String) (_status : String) : String :=
  if strContains (pyLower query) "upgrade" then
    "Hello " ++ name ++ "! I\x27d be happy to help you upgrade your account. Let me check your current status and available options."
  else if strContains (pyLower query) "cancel" then
    "Hello " ++ name ++ ", I understand you\x27re considering cancellation. Before we proceed, I\x27d like to understand your concerns. What\x27s prompting this decision?"
  else if strContains (pyLower query) "refund" || strContains (pyLower query) "charge" then
    "Hello " ++ name ++ ", I apologize for any billing issues. I\x27ll escalate this to our billing team immediately. Can you provide more details?"
  else if strContains (pyLower query) "help" || strContains (pyLower query) "support" then
    "Hello " ++ name ++ "! I\x27m here to help with your inquiry. What can I assist you with today?"
  else
    "Hello " ++ name ++ "! Thank you for reaching out. I\x27m reviewing your request and will provide assistance shortly."

/-- `customer_data.get(·customer·, \x7b\x7d).get(·name·, ·Customer·)` of
SupportAgent._provide_support. -/
def customerNameOf (customer_data : Res) : String :=
  match customer_data.payload with
  | some (Payload.customerFound c) => c.name
  | _ => "Customer"

/-- `customer_data.get(·customer·, \x7b\x7d).get(·status·, ·unknown·)` of
SupportAgent._provide_support. -/
def customerStatusOf (customer_data : Res) : String :=
  match customer_data.payload with
  | some (Payload.customerFound c) => c.status
  | _ => "unknown"

/-- SupportAgent._provide_support: a pure computation that always succeeds
with a generated response string. -/
def provide_support (customer_data : Res) (query : String) : Res :=
  Res.ok (Payload.supportResponse
    (generate_response query (customerNameOf customer_data) (customerStatusOf customer_data)))

/-- The six coordination intents of RouterAgent._analyze_intent. -/
inductive Intent where
  | simple_data_query
  | escalation
  | multi_intent
  | complex_analysis
  | coordinated_support
  | general
  deriving Repr, DecidableEq

/-- RouterAgent._analyze_intent: the fixed rule ladder over the lower-cased
query, evaluated first-match-wins.  Rule 1 only fires when a simple-query
phrase is present and none of the negative words is; a query meeting both
conditions falls through to the later rules. -/
def analyze_intent (query : String) : Intent :=
  if (["get customer", "customer information", "show customer"].any
        (fun phrase => strContains (pyLower query) phrase))
      && !(["help", "support", "upgrade", "issue"].any
        (fun word => strContains (pyLower query) word)) then
    Intent.simple_data_query
  else if ["charged twice", "refund immediately", "urgent", "emergency"].any
      (fun word => strContains (pyLower query) word) then
    Intent.escalation
  else if 2 ≤ (["update", "show", "get", "create", "list"].countP
      (fun action => strContains (pyLower query) action)) then
    Intent.multi_intent
  else if ["all customers", "high-priority tickets", "open tickets", "active customers"].any
      (fun phrase => strContains (pyLower query) phrase) then
    Intent.complex_analysis
  else if ["help", "support", "upgrade", "cancel", "issue"].any
      (fun word => strContains (pyLower query) word) then
    Intent.coordinated_support
  else Intent.general

/-- Parse a run of decimal digits, as Python's `int` does on the captured
group. -/
def digitsToNat (ds : List Char) : Nat :=
  ds.foldl (fun acc c => 10 * acc + (c.toNat - 48)) 0

/-- After one of the keywords of the pattern `(?:id|customer)\s*(\d+)` has
matched `klen` characters, consume `\s*` then require and capture `\d+`.
Whitespace and digit classes are disjoint, so greedy matching with
backtracking reduces to: skip all whitespace, then take the maximal digit
run, failing when it is empty. -/
def idMatchAt (cs : List Char) (klen : Nat) : Option Nat :=
  let ds := ((cs.drop klen).dropWhile (fun c => c.isWhitespace)).takeWhile (fun c => c.isDigit)
  if ds.isEmpty then none else some (digitsToNat ds)

/-- `re.search` for `(?:id|customer)\s*(\d+)`: try each start position left
to right; at a position where the keyword matches but no digits follow,
the engine advances to the next position. -/
def extractIdAux : List Char → Option Nat
  | [] => none
  | c :: cs =>
    if ['i', 'd'].isPrefixOf (c :: cs) then
      match idMatchAt (c :: cs) 2 with
      | some n => some n
      | none => extractIdAux cs
    else if ['c', 'u', 's', 't', 'o', 'm', 'e', 'r'].isPrefixOf (c :: cs) then
      match idMatchAt (c :: cs) 8 with
      | some n => some n
      | none => extractIdAux cs
    else extractIdAux cs

/-- RouterAgent._extract_customer_id: prefer `context[·customer_id·]` when
the context is present and has the key, else run the regex over the
lower-cased query, else `None`. -/
def extract_customer_id (query : String) (context : Option Ctx) : Option Int :=
  match context with
  | some ctx =>
    match ctx.customer_id with
    | some v => some v
    | none => (extractIdAux (pyLower query).toList).map Int.ofNat
  | none => (extractIdAux (pyLower query).toList).map Int.ofNat

/-- The `\w` character class of the email pattern (ASCII reading). -/
def isWordChar (c : Char) : Bool := c.isAlphanum || c == '_'

/-- The `[\w\.-]` character class of the email pattern. -/
def isEmailChar (c : Char) : Bool := isWordChar c || c == '.' || c == '-'

/-- The backtracking point of `[\w\.-]+@[\w\.-]+\.\w+` after the `@`: the
greedy middle part ends at the last dot of the run that is preceded by at
least one class character and followed by a word character. -/
def lastValidDot (r : List Char) : Option Nat :=
  (List.range r.length).foldl
    (fun acc j =>
      if (j != 0) && (r.get? j == some '.')
          && (match r.get? (j + 1) with
              | some c => isWordChar c
              | none => false) then some j
      else acc)
    none

/-- Match `[\w\.-]+@[\w\.-]+\.\w+` anchored at the start of `cs`, returning
the matched characters.  `@` is not in the leading class, so the leading
`+` deterministically takes the maximal class run. -/
def emailMatchAt (cs : List Char) : Option (List Char) :=
  let a := cs.takeWhile isEmailChar
  if a.isEmpty then none
  else
    match cs.drop a.length with
    | '@' :: rest =>
      let r := rest.takeWhile isEmailChar
      match lastValidDot r with
      | some j =>
        some (a ++ '@' :: (r.take j ++ '.' :: ((r.drop (j + 1)).takeWhile isWordChar)))
      | none => none
    | _ => none

/-- `re.search` for the email pattern over a character list: the leftmost
start position with a successful match wins. -/
def emailSearchAux : List Char → Option (List Char)
  | [] => none
  | c :: cs =>
    match emailMatchAt (c :: cs) with
    | some m => some m
    | none => emailSearchAux cs

/-- `re.search(r·[\w\.-]+@[\w\.-]+\.\w+·, query)` of the multi-intent
handler, run over the original (not lower-cased) query. -/
def emailSearch (query : String) : Option String :=
  (emailSearchAux query.toList).map (fun l => String.mk l)

/-- The formatted response of the simple-query handler. -/
def simpleResponse (c : Customer) : String :=
  "Customer Information:\n"
  ++ "  ID: " ++ toString c.id ++ "\n"
  ++ "  Name: " ++ c.name ++ "\n"
  ++ "  Email: " ++ c.email ++ "\n"
  ++ "  Phone: " ++ c.phone ++ "\n"
  ++ "  Status: " ++ c.status ++ "\n"

/-- RouterAgent._handle_simple_query (Task Allocation): resolve a truthy
customer id, call get_customer, propagate its failure unchanged, else wrap
the formatted response together with the specialist result (`data`). -/
def handle_simple_query (st : Store) (query : String) (context : Option Ctx) : Res :=
  match extract_customer_id query context with
  | none => Res.err "Customer ID required but not found in query or context"
  | some i =>
    if i == 0 then Res.err "Customer ID required but not found in query or context"
    else if !(get_customer st i).success then get_customer st i
    else
      match (get_customer st i).payload with
      | some (Payload.customerFound c) =>
        Res.ok (Payload.simpleData (simpleResponse c) (get_customer st i))
      | _ => get_customer st i

/-- `support_result[·response·]` of the coordinated-support handler. -/
def supportTextOf (support_result : Res) : String :=
  match support_result.payload with
  | some (Payload.supportResponse s) => s
  | _ => ""

/-- RouterAgent._handle_coordinated_support (Negotiation): resolve a truthy
customer id, get_customer (failure propagates unchanged), then
provide_support (failure would propagate unchanged), else wrap the support
response together with the customer result (`customer_data`). -/
def handle_coordinated_support (st : Store) (query : String) (context : Option Ctx) : Res :=
  match extract_customer_id query context with
  | none => Res.err "Customer ID required for support queries"
  | some i =>
    if i == 0 then Res.err "Customer ID required for support queries"
    else if !(get_customer st i).success then get_customer st i
    else if !(provide_support (get_customer st i) query).success then
      provide_support (get_customer st i) query
    else
      Res.ok (Payload.coordSupport
        (supportTextOf (provide_support (get_customer st i) query))
        (get_customer st i))

/-- One bullet of the complex-analysis response. -/
def openRowLine (r : OpenRow) : String :=
  "  • " ++ r.name ++ " (ID: " ++ toString r.id ++ ")\n"
  ++ "    Email: " ++ r.email ++ "\n"
  ++ "    Open Tickets: " ++ toString r.open_ticket_count ++ "\n\n"

/-- The formatted response of the complex-analysis handler. -/
def complexResponse (rows : List OpenRow) : String :=
  "Active Customers with Open Tickets:\n\n"
  ++ "Total: " ++ toString rows.length ++ " customers\n\n"
  ++ String.join (rows.map openRowLine)

/-- RouterAgent._handle_complex_analysis (Multi-Step Coordination): the one
recognized sub-pattern calls get_customers_with_open_tickets (failure would
propagate unchanged); any other text yields the pattern-not-recognized
error. -/
def handle_complex_analysis (st : Store) (query : String) : Res :=
  if strContains (pyLower query) "active customers" && strContains (pyLower query) "open tickets" then
    if !(get_customers_with_open_tickets st).success then get_customers_with_open_tickets st
    else
      match (get_customers_with_open_tickets st).payload with
      | some (Payload.openTickets rows _) =>
        Res.ok (Payload.analysisData (complexResponse rows) rows)
      | _ => get_customers_with_open_tickets st
  else Res.err "Complex query pattern not recognized"

/-- `urgency_result.get(·urgency·, ·unknown·)`. -/
def urgencyGet (r : Res) : String :=
  match r.payload with
  | some (Payload.urgencyP u _ _) => u
  | _ => "unknown"

/-- `urgency_result.get(·priority·, ·medium·)`. -/
def priorityGet (r : Res) : String :=
  match r.payload with
  | some (Payload.urgencyP _ p _) => p
  | _ => "medium"

/-- `urgency_result.get(·reason·, ·Escalated by system·)`. -/
def reasonGet (r : Res) : String :=
  match r.payload with
  | some (Payload.urgencyP _ _ why) => why
  | _ => "Escalated by system"

/-- The customer block of the escalation response, present only when the
best-effort lookup succeeded. -/
def escCustomerBlock : Option Res → String
  | some cd =>
    match cd.payload with
    | some (Payload.customerFound c) =>
      "Customer: " ++ c.name ++ " (ID: " ++ toString c.id ++ ")\n"
      ++ "Contact: " ++ c.email ++ "\n\n"
    | _ => ""
  | none => ""

/-- The formatted response of the escalation handler. -/
def escResponse (urgency_result : Res) (customer_data : Option Res) : String :=
  "🚨 ESCALATED TICKET - Priority Support\n\n"
  ++ escCustomerBlock customer_data
  ++ "Urgency: " ++ pyUpper (urgencyGet urgency_result) ++ "\n"
  ++ "Priority: " ++ priorityGet urgency_result ++ "\n"
  ++ "Reason: " ++ reasonGet urgency_result ++ "\n\n"
  ++ "This issue has been flagged for immediate attention.\n"
  ++ "Expected response time: Within 1 hour\n"

/-- Step 2 of the escalation handler: when a truthy customer id is
resolvable, look the customer up best-effort; a failed lookup leaves
`customer_data = None` instead of aborting. -/
def escCustomerData (st : Store) (query : String) (context : Option Ctx) : Option Res :=
  match extract_customer_id query context with
  | some i =>
    if i == 0 then none
    else if (get_customer st i).success then some (get_customer st i)
    else none
  | none => none

/-- RouterAgent._handle_escalation: assess urgency (always succeeds), do the
best-effort customer lookup, and always return a success result embedding
the urgency sub-result and the optional customer block. -/
def handle_escalation (st : Store) (query : String) (context : Option Ctx) : Res :=
  Res.ok (Payload.escalationData
    (escResponse (assess_urgency query) (escCustomerData st query context))
    (assess_urgency query)
    (escCustomerData st query context))

/-- The update-email sub-task of the multi-intent handler: when the query
mentions update and email and an email address is extractable, call
update_customer with the new email; the pair holds the recorded
`(label, result)` entries and the store after the sub-task. -/
def multiUpdateStep (st : Store) (query : String) (i : Int) :
    List (String × Res) × Store :=
  if strContains (pyLower query) "update" && strContains (pyLower query) "email" then
    match emailSearch query with
    | some new_email =>
      ([("update_email", (update_customer st i [("email", new_email)]).1)],
       (update_customer st i [("email", new_email)]).2)
    | none => ([], st)
  else ([], st)

/-- The full `results` list of the multi-intent handler: the update-email
entries followed by the show-history entry when that sub-intent fires.
Sub-task failures are recorded, never propagated. -/
def multiResultsList (st : Store) (query : String) (i : Int) : List (String × Res) :=
  (multiUpdateStep st query i).1 ++
    (if strContains (pyLower query) "show"
        && (strContains (pyLower query) "history" || strContains (pyLower query) "tickets") then
      [("get_history", get_customer_history (multiUpdateStep st query i).2 i)]
    else [])

/-- One ticket bullet of the multi-intent response. -/
def ticketLine (t : Ticket) : String :=
  "  • Ticket #" ++ toString t.id ++ ": " ++ t.issue ++ " [" ++ t.status ++ "]\n"

/-- One chunk of the multi-intent response: successful sub-results
contribute their summary, failed ones contribute nothing. -/
def fmtMultiChunk : String × Res → String
  | (action_type, result) =>
    if result.success then
      if action_type == "update_email" then "✓ Email updated successfully\n\n"
      else if action_type == "get_history" then
        match result.payload with
        | some (Payload.history _ _ tickets ticket_count) =>
          "✓ Ticket History Retrieved:\n"
          ++ "  Total Tickets: " ++ toString ticket_count ++ "\n"
          ++ String.join ((tickets.take 5).map ticketLine) ++ "\n"
        | _ => ""
      else ""
    else ""

/-- RouterAgent._handle_multi_intent (Parallel Tasks): resolve a truthy
customer id, attempt the matched sub-tasks back-to-back, and return a
success result embedding the `(label, result)` list; the store after the
handler is the store after the update sub-task. -/
def handle_multi_intent (st : Store) (query : String) (context : Option Ctx) :
    Res × Store :=
  match extract_customer_id query context with
  | none => (Res.err "Customer ID required for multi-intent queries", st)
  | some i =>
    if i == 0 then (Res.err "Customer ID required for multi-intent queries", st)
    else
      (Res.ok (Payload.multiData
          ("Multi-Action Request Processed:\n\n"
            ++ String.join ((multiResultsList st query i).map fmtMultiChunk))
          (multiResultsList st query i)),
       (multiUpdateStep st query i).2)

/-- RouterAgent.process_query: classify the query and dispatch to exactly
one pattern handler; the `general` intent yields the classification-miss
error.  The second component is the store after the query. -/
def process_query (st : Store) (query : String) (context : Option Ctx) : Res × Store :=
  match analyze_intent query with
  | Intent.simple_data_query => (handle_simple_query st query context, st)
  | Intent.coordinated_support => (handle_coordinated_support st query context, st)
  | Intent.complex_analysis => (handle_complex_analysis st query, st)
  | Intent.escalation => (handle_escalation st query context, st)
  | Intent.multi_intent => handle_multi_intent st query context
  | Intent.general => (Res.err "Unable to determine query intent", st)

/-- A sample customer row used for concrete instantiations. -/
def alice : Customer :=
  ⟨1, "Alice", "alice@example.com", "555-0001", "active", "2024-01-01", "2024-01-01"⟩

/-- An empty store: no customers, no tickets. -/
def st0 : Store := ⟨[], [], 1, "2024-06-01"⟩

/-- A store holding exactly the customer `alice` (id 1). -/
def st1 : Store := ⟨[alice], [], 1, "2024-06-01"⟩

/-- The result-envelope invariant of the spec: the `error` field is present
exactly when `success` is false. -/
def resultInvariant (r : Res) : Prop :=
  r.error.isSome = true ↔ r.success = false

/-- Success dictionaries satisfy the result-envelope invariant. -/
theorem resultInvariant_ok (p : Payload) : resultInvariant (Res.ok p) := by
  simp [resultInvariant, Res.ok, Res.error, Res.success]

/-- Failure dictionaries satisfy the result-envelope invariant. -/
theorem resultInvariant_err (e : String) : resultInvariant (Res.err e) := by
  simp [resultInvariant, Res.err, Res.error, Res.success]

/-- get_customer satisfies the result-envelope invariant. -/
theorem resultInvariant_get_customer (st : Store) (i : Int) :
    resultInvariant (get_customer st i) := by
  unfold get_customer
  split
  · exact resultInvariant_ok _
  · exact resultInvariant_err _

/-- update_customer satisfies the result-envelope invariant. -/
theorem resultInvariant_update_customer (st : Store) (i : Int)
    (data : List (String × String)) : resultInvariant (update_customer st i data).1 := by
  unfold update_customer
  repeat' split
  all_goals first
    | exact resultInvariant_ok _
    | exact resultInvariant_err _

/-- get_customer_history satisfies the result-envelope invariant. -/
theorem resultInvariant_get_history (st : Store) (i : Int) :
    resultInvariant (get_customer_history st i) := by
  unfold get_customer_history
  split
  · exact resultInvariant_err _
  · exact resultInvariant_ok _

/-- get_customers_with_open_tickets satisfies the result-envelope invariant. -/
theorem resultInvariant_open_tickets (st : Store) :
    resultInvariant (get_customers_with_open_tickets st) :=
  resultInvariant_ok _

/-- assess_urgency satisfies the result-envelope invariant. -/
theorem resultInvariant_assess (q : String) : resultInvariant (assess_urgency q) := by
  unfold assess_urgency
  repeat' split
  all_goals exact resultInvariant_ok _

/-- provide_support satisfies the result-envelope invariant. -/
theorem resultInvariant_provide (cd : Res) (q : String) :
    resultInvariant (provide_support cd q) :=
  resultInvariant_ok _

/-- The simple-query handler satisfies the result-envelope invariant. -/
theorem resultInvariant_handle_simple (st : Store) (q : String) (ctx : Option Ctx) :
    resultInvariant (handle_simple_query st q ctx) := by
  unfold handle_simple_query
  repeat' split
  all_goals first
    | exact resultInvariant_ok _
    | exact resultInvariant_err _
    | exact resultInvariant_get_customer st _

/-- The coordinated-support handler satisfies the result-envelope invariant. -/
theorem resultInvariant_handle_coordinated (st : Store) (q : String) (ctx : Option Ctx) :
    resultInvariant (handle_coordinated_support st q ctx) := by
  unfold handle_coordinated_support
  repeat' split
  all_goals first
    | exact resultInvariant_ok _
    | exact resultInvariant_err _
    | exact resultInvariant_get_customer st _

/-- The complex-analysis handler satisfies the result-envelope invariant. -/
theorem resultInvariant_handle_complex (st : Store) (q : String) :
    resultInvariant (handle_complex_analysis st q) := by
  unfold handle_complex_analysis
  repeat' split
  all_goals first
    | exact resultInvariant_ok _
    | exact resultInvariant_err _

/-- The escalation handler satisfies the result-envelope invariant. -/
theorem resultInvariant_handle_escalation (st : Store) (q : String) (ctx : Option Ctx) :
    resultInvariant (handle_escalation st q ctx) :=
  resultInvariant_ok _

/-- The multi-intent handler satisfies the result-envelope invariant. -/
theorem resultInvariant_handle_multi (st : Store) (q : String) (ctx : Option Ctx) :
    resultInvariant (handle_multi_intent st q ctx).1 := by
  unfold handle_multi_intent
  repeat' split
  all_goals first
    | exact resultInvariant_ok _
    | exact resultInvariant_err _

/-- process_query satisfies the result-envelope invariant. -/
theorem resultInvariant_process (st : Store) (q : String) (ctx : Option Ctx) :
    resultInvariant (process_query st q ctx).1 := by
  unfold process_query
  split
  · exact resultInvariant_handle_simple st q ctx
  · exact resultInvariant_handle_coordinated st q ctx
  · exact resultInvariant_handle_complex st q
  · exact resultInvariant_handle_escalation st q ctx
  · exact resultInvariant_handle_multi st q ctx
  · exact resultInvariant_err _

/-- Appending the empty string on the right is the identity. -/
theorem string_append_empty (s : String) : s ++ "" = s := by
  cases s with
  | mk data =>
    show String.mk (data ++ []) = String.mk data
    rw [List.append_nil]

/-- C1 counterexample: on the query of the claim, the first high-urgency
keyword (in the list order of the source) that occurs in the lower-cased
text is "immediately", which precedes "charged twice" in the list; the
reason therefore cites "immediately" and does not contain "charged twice". -/
theorem assess_urgency_first_match_cx :
    reasonGet (assess_urgency "I\x27ve been charged twice, please refund immediately!")
      = "Contains high-urgency keyword: immediately"
    ∧ strContains
        (reasonGet (assess_urgency "I\x27ve been charged twice, please refund immediately!"))
        "charged twice" = false :=
  ⟨rfl, rfl⟩

/-- C1 (amended): the query classifies as Escalation and assess_urgency
returns urgency "high" with a reason citing "immediately" — the first
match over the ordered high-urgency keyword list, in which "immediately"
precedes "charged twice"; process_query embeds exactly this urgency
sub-result, for every store and context. -/
theorem assess_urgency_first_match_amended :
    ∀ (st : Store) (ctx : Option Ctx),
      analyze_intent "I\x27ve been charged twice, please refund immediately!"
        = Intent.escalation
      ∧ assess_urgency "I\x27ve been charged twice, please refund immediately!"
          = Res.ok (Payload.urgencyP "high" "high" "Contains high-urgency keyword: immediately")
      ∧ (process_query st "I\x27ve been charged twice, please refund immediately!" ctx).1.escUrgency
          = some (Res.ok (Payload.urgencyP "high" "high"
              "Contains high-urgency keyword: immediately")) :=
  fun _st _ctx => ⟨rfl, rfl, rfl⟩

/-- C4: classification respects the fixed rule precedence: a query holding a
negative word of rule 1 can never classify as SimpleDataQuery (it falls
through to later rules), and in particular "help me get customer 5" is
CoordinatedSupport. -/
theorem classifier_precedence :
    analyze_intent "help me get customer 5" = Intent.coordinated_support
    ∧ ∀ q : String,
        (["help", "support", "upgrade", "issue"].any
          (fun word => strContains (pyLower q) word)) = true →
        analyze_intent q ≠ Intent.simple_data_query := by
  constructor
  · rfl
  · intro q h
    unfold analyze_intent
    simp only [h, Bool.not_true, Bool.and_false, Bool.false_eq_true, if_false]
    repeat' split
    all_goals decide

/-- C4 witness: the fall-through hypothesis discharged on the concrete
query "help me get customer 5". -/
theorem classifier_precedence_w :
    analyze_intent "help me get customer 5" ≠ Intent.simple_data_query :=
  classifier_precedence.2 "help me get customer 5" rfl

/-- C9: a resolved customer id of 0 is rejected by the truthiness check of
every id-requiring pattern handler: SimpleDataQuery, CoordinatedSupport and
MultiIntent all return their missing-customer-id error without touching the
store. -/
theorem zero_customer_id_falsy :
    ∀ (st : Store) (q : String) (ctx : Option Ctx),
      extract_customer_id q ctx = some 0 →
      handle_simple_query st q ctx
          = Res.err "Customer ID required but not found in query or context"
      ∧ handle_coordinated_support st q ctx
          = Res.err "Customer ID required for support queries"
      ∧ handle_multi_intent st q ctx
          = (Res.err "Customer ID required for multi-intent queries", st) := by
  intro st q ctx h
  refine ⟨?_, ?_, ?_⟩
  · unfold handle_simple_query
    rw [h]
    rfl
  · unfold handle_coordinated_support
    rw [h]
    rfl
  · unfold handle_multi_intent
    rw [h]
    rfl

/-- C9 witness: context customer_id 0 on a concrete query and store. -/
theorem zero_customer_id_falsy_w :
    handle_simple_query st0 "x" (some ⟨some 0⟩)
      = Res.err "Customer ID required but not found in query or context" :=
  (zero_customer_id_falsy st0 "x" (some ⟨some 0⟩) rfl).1

/-- C7: the escalation pattern always returns success: assess_urgency
succeeds by construction, the handler result is a success dictionary for
every store, query and context, and the best-effort customer lookup leaves
the customer block `None` both when no truthy id is resolvable and when the
lookup fails — it never aborts the pattern. -/
theorem escalation_always_succeeds :
    ∀ (st : Store) (q : String) (ctx : Option Ctx),
      (assess_urgency q).success = true
      ∧ (handle_escalation st q ctx).success = true
      ∧ (extract_customer_id q ctx = none →
          (handle_escalation st q ctx).escCustomer = none)
      ∧ (∀ i : Int, extract_customer_id q ctx = some i → (i == 0) = false →
          (get_customer st i).success = false →
          (handle_escalation st q ctx).escCustomer = none) := by
  intro st q ctx
  refine ⟨?_, rfl, ?_, ?_⟩
  · unfold assess_urgency
    split
    · rfl
    · split <;> rfl
  · intro h
    show escCustomerData st q ctx = none
    unfold escCustomerData
    rw [h]
  · intro i h hz hf
    show escCustomerData st q ctx = none
    unfold escCustomerData
    rw [h]
    simp [hz, hf]

/-- C7 witness: a failing lookup (customer 1 on the empty store) leaves the
customer block empty while the handler still succeeds. -/
theorem escalation_always_succeeds_w :
    (handle_escalation st0 "urgent" (some ⟨some 1⟩)).escCustomer = none :=
  (escalation_always_succeeds st0 "urgent" (some ⟨some 1⟩)).2.2.2 1 rfl rfl rfl

/-- C3 counterexample: on the empty store with context customer_id 1, the
escalation query "urgent" has a failing specialist lookup
(get_customer fails), yet process_query returns success — the Escalation
handler does not short-circuit on a specialist failure, contradicting the
claim that it propagates the failing Result unchanged. -/
theorem escalation_no_fail_fast_cx :
    (get_customer st0 1).success = false
    ∧ (process_query st0 "urgent" (some ⟨some 1⟩)).1.success = true
    ∧ (process_query st0 "urgent" (some ⟨some 1⟩)).1 ≠ get_customer st0 1 := by
  refine ⟨rfl, rfl, fun h => ?_⟩
  exact absurd (congrArg Res.success h) (by decide)

/-- C3 (amended): the SimpleDataQuery and CoordinatedSupport handlers
short-circuit on a failing get_customer, returning that failing Result
unchanged (and the ComplexAnalysis handler has the same propagation guard,
its only specialist call being infallible in this model); the Escalation
handler never propagates a failure; the MultiIntent handler instead always
returns top-level success for a truthy id and embeds each sub-task's
Result, failing or not, in the results list. -/
theorem handlers_failure_propagation :
    ∀ (st : Store) (q : String) (ctx : Option Ctx) (i : Int),
      extract_customer_id q ctx = some i → (i == 0) = false →
      ((get_customer st i).success = false →
        handle_simple_query st q ctx = get_customer st i)
      ∧ ((get_customer st i).success = false →
          handle_coordinated_support st q ctx = get_customer st i)
      ∧ (handle_multi_intent st q ctx).1.success = true
      ∧ (strContains (pyLower q) "update" = true → strContains (pyLower q) "email" = true →
          ∀ em : String, emailSearch q = some em →
          strContains (pyLower q) "show" = true → strContains (pyLower q) "history" = true →
          st.customers.any (fun c => c.id == i) = false →
          (handle_multi_intent st q ctx).1.multiResults
            = some [("update_email", Res.err ("Customer " ++ toString i ++ " not found")),
                    ("get_history", Res.err ("Customer " ++ toString i ++ " not found"))]) := by
  intro st q ctx i hext hz
  refine ⟨?_, ?_, ?_, ?_⟩
  · intro hf
    unfold handle_simple_query
    rw [hext]
    simp [hz, hf]
  · intro hf
    unfold handle_coordinated_support
    rw [hext]
    simp [hz, hf]
  · unfold handle_multi_intent
    rw [hext]
    simp [hz, Res.ok, Res.success]
  · intro hu he em hem hs hh hnone
    have hfind : st.customers.find? (fun c => c.id == i) = none :=
      List.find?_eq_none.mpr (fun c hc => by
        have := List.any_eq_false.mp hnone c hc
        simpa using this)
    have hupd : update_customer st i [("email", em)]
        = (Res.err ("Customer " ++ toString i ++ " not found"), st) := by
      unfold update_customer
      simp [hnone]
    have hhist : get_customer_history st i
        = Res.err ("Customer " ++ toString i ++ " not found") := by
      unfold get_customer_history
      rw [hfind]
    unfold handle_multi_intent
    rw [hext]
    simp only [hz, Bool.false_eq_true, if_false]
    show (Res.ok (Payload.multiData _ (multiResultsList st q i))).multiResults = _
    unfold Res.multiResults Res.ok Res.payload
    unfold multiResultsList multiUpdateStep
    rw [hem]
    simp [hu, he, hs, hh, hupd, hhist]

/-- C3 witness: on the empty store with a truthy id, a failing lookup is
propagated unchanged by the simple handler, while the multi-intent handler
embeds both failing sub-results. -/
theorem handlers_failure_propagation_w :
    handle_simple_query st0 "update email to a@b.co and show history" (some ⟨some 7⟩)
        = get_customer st0 7
    ∧ (handle_multi_intent st0 "update email to a@b.co and show history"
          (some ⟨some 7⟩)).1.multiResults
        = some [("update_email", Res.err ("Customer " ++ toString (7 : Int) ++ " not found")),
                ("get_history", Res.err ("Customer " ++ toString (7 : Int) ++ " not found"))] := by
  have h := handlers_failure_propagation st0 "update email to a@b.co and show history"
    (some ⟨some 7⟩) 7 rfl rfl
  exact ⟨h.1 rfl, h.2.2.2 rfl rfl "a@b.co" rfl rfl rfl rfl⟩

/-- C2: process_query is total by construction and returns a result whose
error field is present exactly when success is false; in particular a
SimpleDataQuery with no resolvable customer id yields the validation-error
Result rather than any abnormal outcome. -/
theorem process_query_result_envelope :
    ∀ (st : Store) (q : String) (ctx : Option Ctx),
      ((process_query st q ctx).1.error.isSome = true
        ↔ (process_query st q ctx).1.success = false)
      ∧ (analyze_intent q = Intent.simple_data_query →
          extract_customer_id q ctx = none →
          (process_query st q ctx).1
            = Res.err "Customer ID required but not found in query or context") := by
  intro st q ctx
  refine ⟨resultInvariant_process st q ctx, ?_⟩
  intro hi he
  unfold process_query
  rw [hi]
  show handle_simple_query st q ctx = _
  unfold handle_simple_query
  rw [he]

/-- C2 witness: a SimpleDataQuery with neither a context id nor an id in
the text returns the validation error. -/
theorem process_query_result_envelope_w :
    (process_query st0 "get customer information" none).1
      = Res.err "Customer ID required but not found in query or context" :=
  (process_query_result_envelope st0 "get customer information" none).2 rfl rfl

/-- C6: the canonical multi-intent query with context customer_id 4 yields
a results list of exactly two entries labeled update_email then
get_history, in that order, for every store — i.e. regardless of whether
the underlying sub-calls succeed or fail. -/
theorem multi_intent_two_results :
    ∀ st : Store,
      ((process_query st "Update my email to newemail@test.com and show my ticket history"
          (some ⟨some 4⟩)).1.multiResults).map (fun rs => rs.map Prod.fst)
        = some ["update_email", "get_history"] :=
  fun _st => rfl

/-- C5 counterexample: updating existing customer 1 with a mapping holding
one allowed field and one non-allowed field succeeds, but the reported
updated_fields list is all keys of the mapping — it contains the
non-allowed "nickname" and is not the applied-fields list ["email"]. -/
theorem update_customer_updated_fields_cx :
    (update_customer st1 1 [("email", "e@x.io"), ("nickname", "B")]).1.updatedFields
        = some ["email", "nickname"]
    ∧ allowed_fields.contains "nickname" = false
    ∧ ¬ (update_customer st1 1 [("email", "e@x.io"), ("nickname", "B")]).1.updatedFields
        = some ["email"] :=
  ⟨rfl, rfl, by decide⟩

/-- C5 (amended): update_customer fails with NotFound when the id is
absent, fails with the no-valid-fields error when the mapping holds no
allowed field, and on success reports all keys of the input mapping
(which coincide with the updated field names exactly when every key is
allowed). -/
theorem update_customer_contract :
    ∀ (st : Store) (cid : Int) (data : List (String × String)),
      (st.customers.any (fun c => c.id == cid) = false →
        (update_customer st cid data).1
          = Res.err ("Customer " ++ toString cid ++ " not found"))
      ∧ (st.customers.any (fun c => c.id == cid) = true →
          data.filter (fun fv => allowed_fields.contains fv.1) = [] →
          (update_customer st cid data).1 = Res.err "No valid fields to update")
      ∧ (st.customers.any (fun c => c.id == cid) = true →
          data.filter (fun fv => allowed_fields.contains fv.1) ≠ [] →
          (update_customer st cid data).1
            = Res.ok (Payload.updated cid (data.map Prod.fst))) := by
  intro st cid data
  refine ⟨?_, ?_, ?_⟩
  · intro h
    unfold update_customer
    simp [h]
  · intro h hf
    unfold update_customer
    have hemp : (data.filter (fun fv => allowed_fields.contains fv.1)).isEmpty = true := by
      rw [hf]
      rfl
    rw [if_pos h, if_pos hemp]
  · intro h hne
    rcases hc : data.filter (fun fv => allowed_fields.contains fv.1) with _ | ⟨fv, rest⟩
    · exact absurd hc hne
    · unfold update_customer
      have hemp : ¬((data.filter (fun fv => allowed_fields.contains fv.1)).isEmpty = true) := by
        rw [hc]
        exact Bool.false_ne_true
      rw [if_pos h, if_neg hemp]

/-- C5 witness: the mixed mapping on the one-customer store, instantiating
the success branch of the contract. -/
theorem update_customer_contract_w :
    (update_customer st1 1 [("email", "e@x.io"), ("nickname", "B")]).1
      = Res.ok (Payload.updated 1 ["email", "nickname"]) :=
  (update_customer_contract st1 1 [("email", "e@x.io"), ("nickname", "B")]).2.2
    rfl (by decide)

/-- C8: creating a ticket for an existing customer with a priority outside
low/medium/high still succeeds: the ticket is inserted with priority
coerced to "medium", the success payload reports "medium", and the
invalid-priority warning line is recorded in the call's log trace. -/
theorem create_ticket_priority_coercion :
    ∀ (st : Store) (cid : Int) (issue prio : String),
      st.customers.any (fun c => c.id == cid) = true →
      (["low", "medium", "high"].contains prio) = false →
      ((create_ticket st cid issue prio).1
          = Res.ok (Payload.ticketCreated st.nextTicketId cid issue "medium" "open"))
      ∧ ((create_ticket st cid issue prio).2.1.tickets
          = st.tickets ++ [⟨st.nextTicketId, cid, issue, "open", "medium", st.now⟩])
      ∧ (("[MCP] ⚠ Invalid priority \x27" ++ prio ++ "\x27, defaulting to \x27medium\x27")
          ∈ (create_ticket st cid issue prio).2.2) := by
  intro st cid issue prio h1 h2
  unfold create_ticket
  have hn : ¬(["low", "medium", "high"].contains prio = true) := by
    rw [h2]
    exact Bool.false_ne_true
  rw [if_pos h1, if_neg hn]
  refine ⟨rfl, rfl, ?_⟩
  exact List.mem_cons_of_mem _ (List.mem_cons_self _ _)

/-- C8 witness: priority "urgent" for the existing customer 1 is coerced
to "medium" and the warning is in the trace. -/
theorem create_ticket_priority_coercion_w :
    ((create_ticket st1 1 "Printer down" "urgent").1
        = Res.ok (Payload.ticketCreated 1 1 "Printer down" "medium" "open"))
    ∧ (("[MCP] ⚠ Invalid priority \x27" ++ "urgent" ++ "\x27, defaulting to \x27medium\x27")
        ∈ (create_ticket st1 1 "Printer down" "urgent").2.2) := by
  have h := create_ticket_priority_coercion st1 1 "Printer down" "urgent" rfl rfl
  exact ⟨h.1, h.2.2⟩

/-- C10: a query classified MultiIntent with a truthy customer id in which
neither sub-intent fires produces a success result whose results list is
empty and whose response is exactly the header — no specialist call is
made and the store is unchanged. -/
theorem multi_intent_no_subintents :
    ∀ (st : Store) (q : String) (ctx : Option Ctx) (i : Int),
      analyze_intent q = Intent.multi_intent →
      extract_customer_id q ctx = some i → (i == 0) = false →
      ((strContains (pyLower q) "update" && strContains (pyLower q) "email") = true →
        emailSearch q = none) →
      (strContains (pyLower q) "show"
        && (strContains (pyLower q) "history" || strContains (pyLower q) "tickets")) = false →
      process_query st q ctx
        = (Res.ok (Payload.multiData "Multi-Action Request Processed:\n\n" []), st) := by
  intro st q ctx i hi hext hz hupd hshow
  have hstep : multiUpdateStep st q i = ([], st) := by
    unfold multiUpdateStep
    cases hc : strContains (pyLower q) "update" && strContains (pyLower q) "email"
    · simp [hc]
    · simp [hc, hupd hc]
  have hlist : multiResultsList st q i = [] := by
    unfold multiResultsList
    simp [hstep, hshow]
  unfold process_query
  rw [hi]
  show handle_multi_intent st q ctx = _
  unfold handle_multi_intent
  rw [hext]
  simp [hz, hlist, hstep, string_append_empty, String.join]

/-- C10 witness: "get and list customer 7" is MultiIntent (two action
words), resolves id 7 from the text, and fires neither sub-intent. -/
theorem multi_intent_no_subintents_w :
    process_query st0 "get and list customer 7" none
      = (Res.ok (Payload.multiData "Multi-Action Request Processed:\n\n" []), st0) :=
  multi_intent_no_subintents st0 "get and list customer 7" none 7 rfl rfl rfl
    (by decide) rfl
